import Mathlib

/-!
Verification development for the llvmcpy toolchain-resolution, wrapper-caching
and library-synthesis pipeline (`llvmcpy/__init__.py`).

The Python source is shallowly embedded: subprocess outputs of the
`llvm-config` helper, the filesystem, environment variables and the
cryptographic hash are inputs packaged in an `Env` record; the side effects of
construction (helper queries, directory creation, linker invocations,
generator invocations, artifact execution) are recorded in an explicit trace.
-/

namespace LLVMCPy

/-! ## Path and string helpers -/

/-- Join a directory and an entry name, as `pathlib`'s `/` operator does for a
relative name. -/
def joinPath (d n : String) : String := d ++ "/" ++ n

/-- Split a character list at every occurrence of a separator character,
keeping empty pieces, as Python's `str.split(sep)` with an explicit
one-character separator. -/
def splitOnCharL (sep : Char) : List Char → List (List Char)
  | [] => [[]]
  | c :: rest =>
    if c = sep then [] :: splitOnCharL sep rest
    else
      match splitOnCharL sep rest with
      | [] => [[c]]
      | h :: t => (c :: h) :: t

/-- `str.split(sep)` on strings for a one-character separator. -/
def strSplitChar (sep : Char) (s : String) : List String :=
  (splitOnCharL sep s.data).map String.mk

/-- Last path component, as `pathlib.PurePath.name` for names without
trailing separators. -/
def baseName (s : String) : String := (strSplitChar '/' s).getLastD s

/-- Embedding of `pathlib.PurePath.suffixes` applied to a file name:
the list of dot-suffixes of the final component, e.g.
`suffixes "libLLVM.so.14" = [".so", ".14"]`. -/
def suffixes (name : String) : List String :=
  if name.data.getLast? = some '.' then []
  else
    ((strSplitChar '.' (String.mk (name.data.dropWhile (fun c => c = '.')))).tail).map
      (fun s => "." ++ s)

/-- Whether `pre` is a prefix of `l` (on character lists). -/
def hasPrefixL : List Char → List Char → Bool
  | _, [] => true
  | [], _ :: _ => false
  | a :: as, b :: bs => a = b && hasPrefixL as bs

/-- Whether `sub` occurs as a contiguous sublist of `l`. -/
def containsSub : List Char → List Char → Bool
  | [], sub => sub.isEmpty
  | l@(_ :: rest), sub => hasPrefixL l sub || containsSub rest sub

/-- Substring containment on strings. -/
def strContains (s sub : String) : Bool := containsSub s.data sub.data

/-- Embedding of the glob pattern `libLLVM*{ext}*` applied to a single
directory-entry name: a literal `libLLVM` prefix, then `ext` occurring
anywhere in the remainder. -/
def globMatch (ext name : String) : Bool :=
  hasPrefixL name.data "libLLVM".data && containsSub (name.data.drop 7) ext.data

/-- Platform shared-library extension, from `_make_wrapper` lines 65-70. -/
def extensionFor (platform : String) : String :=
  if platform = "win32" then ".dll"
  else if platform = "darwin" then ".dylib"
  else ".so"

/-! ## shlex.split (POSIX mode, as used by `_make_wrapper`) -/

/-- Lexer state for the embedding of `shlex.split` (POSIX rules, comments
disabled, whitespace splitting): outside any token, inside an unquoted word,
inside single quotes, inside double quotes, or just after a backslash in an
unquoted word or inside double quotes. -/
inductive ShlexState where
  | out
  | word
  | single
  | double
  | escWord
  | escDouble
  deriving DecidableEq, Repr

/-- shlex whitespace characters. -/
def isShlexWS (c : Char) : Bool := c = ' ' || c = '\t' || c = '\r' || c = '\n'

/-- One-character-at-a-time embedding of `shlex.split`'s token loop.
`none` models the `ValueError` Python raises on an unterminated quote or a
trailing escape character. -/
def shlexAux : List Char → ShlexState → List Char → List String → Option (List String)
  | [], .out, _, acc => some acc
  | [], .word, cur, acc => some (acc ++ [String.mk cur])
  | [], .single, _, _ => none
  | [], .double, _, _ => none
  | [], .escWord, _, _ => none
  | [], .escDouble, _, _ => none
  | c :: rest, .out, _, acc =>
    if isShlexWS c then shlexAux rest .out [] acc
    else if c = '\'' then shlexAux rest .single [] acc
    else if c = '"' then shlexAux rest .double [] acc
    else if c = '\\' then shlexAux rest .escWord [] acc
    else shlexAux rest .word [c] acc
  | c :: rest, .word, cur, acc =>
    if isShlexWS c then shlexAux rest .out [] (acc ++ [String.mk cur])
    else if c = '\'' then shlexAux rest .single cur acc
    else if c = '"' then shlexAux rest .double cur acc
    else if c = '\\' then shlexAux rest .escWord cur acc
    else shlexAux rest .word (cur ++ [c]) acc
  | c :: rest, .single, cur, acc =>
    if c = '\'' then shlexAux rest .word cur acc
    else shlexAux rest .single (cur ++ [c]) acc
  | c :: rest, .double, cur, acc =>
    if c = '"' then shlexAux rest .word cur acc
    else if c = '\\' then shlexAux rest .escDouble cur acc
    else shlexAux rest .double (cur ++ [c]) acc
  | c :: rest, .escWord, cur, acc => shlexAux rest .word (cur ++ [c]) acc
  | c :: rest, .escDouble, cur, acc =>
    if c = '"' || c = '\\' then shlexAux rest .double (cur ++ [c]) acc
    else shlexAux rest .double (cur ++ ['\\', c]) acc

/-- Embedding of `shlex.split` on a whole string. -/
def shlexSplit (s : String) : Option (List String) := shlexAux s.data .out [] []

/-! ## UTF-8 encoding (Python `str.encode("utf-8")`) -/

/-- UTF-8 encoding of a single code point, as a list of byte values. -/
def utf8Char (c : Char) : List Nat :=
  let n := c.toNat
  if n < 0x80 then [n]
  else if n < 0x800 then
    [0xC0 ||| (n >>> 6), 0x80 ||| (n &&& 0x3F)]
  else if n < 0x10000 then
    [0xE0 ||| (n >>> 12), 0x80 ||| ((n >>> 6) &&& 0x3F), 0x80 ||| (n &&& 0x3F)]
  else
    [0xF0 ||| (n >>> 18), 0x80 ||| ((n >>> 12) &&& 0x3F),
     0x80 ||| ((n >>> 6) &&& 0x3F), 0x80 ||| (n &&& 0x3F)]

/-- UTF-8 encoding of a string, as a list of byte values. -/
def utf8Encode (s : String) : List Nat := (s.data.map utf8Char).flatten

/-! ## Data model -/

/-- One entry of the toolkit's library directory, as seen by the glob scan:
its name and the two `stat`-level facts the scan consults. -/
structure DirEntry where
  name : String
  isFile : Bool
  isSymlink : Bool
  deriving DecidableEq, Repr

/-- The trimmed outputs of the configuration helper (`llvm-config`) for the
flags the pipeline queries. One record per toolchain; each field is the
stripped stdout of the corresponding invocation. -/
structure ConfigOut where
  bindir : String
  version : String
  libdir : String
  sharedMode : String
  libnames : String
  ldflags : String
  libs : String
  systemLibs : String
  includedir : String
  deriving DecidableEq, Repr

/-- Provenance of a resolved library (spec §3 `LibraryDescriptor.origin`),
determined by which branch of `_make_wrapper` produced it. -/
inductive Origin where
  | declaredShared
  | scannedShared
  | synthesizedShared
  deriving DecidableEq, Repr

/-- A resolved library file. -/
structure LibraryDescriptor where
  path : String
  origin : Origin
  deriving DecidableEq, Repr

/-- Observable side effects of facade construction, in order:
helper subprocess queries, cache-directory creation (with the `parents` and
`exist_ok` flags used), linker subprocess invocations, generator invocations
(`generator.generate_wrapper(path)`), and execution of the cached artifact
into a fresh module. -/
inductive Effect where
  | queryConfig (flags : List String)
  | mkdirCall (path : String) (parents existOk : Bool)
  | linkerCall (args : List String)
  | generate (path : String)
  | execArtifact (unitName path : String)
  deriving DecidableEq, Repr

/-- Errors terminating construction: `RuntimeError` from `_find_program`,
`subprocess.CalledProcessError` from the synthesis `check_call`, `ValueError`
from the empty-library check or from `shlex.split`. -/
inductive Err where
  | toolNotFound (msg : String)
  | linkError (args : List String)
  | valueError (msg : String)
  | shlexError
  deriving DecidableEq, Repr

/-- Decidable equality for `Except`, needed to evaluate the witnesses. -/
instance {α β : Type} [DecidableEq α] [DecidableEq β] : DecidableEq (Except α β) := by
  intro a b
  cases a with
  | error x =>
    cases b with
    | error y =>
      cases hx : decEq x y with
      | isTrue h => exact isTrue (by rw [h])
      | isFalse h => exact isFalse (by intro he; cases he; exact h rfl)
    | ok y => exact isFalse (by intro he; cases he)
  | ok x =>
    cases b with
    | error y => exact isFalse (by intro he; cases he)
    | ok y =>
      cases hx : decEq x y with
      | isTrue h => exact isTrue (by rw [h])
      | isFalse h => exact isFalse (by intro he; cases he; exact h rfl)

/-- A Python attribute value: a string, or a reference to a heap object
identified by a numeric id. -/
inductive PyValue where
  | str (s : String)
  | ref (id : Nat)
  deriving DecidableEq, Repr

/-- A loaded module: the unit name given to `spec_from_file_location`, the
exported symbol table produced by executing the artifact, and a fresh heap
identity allocated by `module_from_spec`. -/
structure PyModule where
  unitName : String
  symbols : List (String × Nat)
  instId : Nat

/-- The environment a construction runs against: environment variables,
executable lookups, helper outputs, platform, the library directory's
contents, whether the synthesis link succeeds, file existence, this tool's
own release version (`_get_version()`), the cryptographic hash
(`hashlib.sha256(...).hexdigest()`, abstracted as a function on byte lists),
the user cache root (`platformdirs.user_cache_dir("llvmcpy")`), and the
symbol table the generated artifact exports when executed. -/
structure Env where
  osEnv : String → Option String
  execPath : String → Bool
  cfg : ConfigOut
  platform : String
  libdirEntries : List DirEntry
  synthOk : Bool
  fileExists : String → Bool
  toolVersion : String
  hash : List Nat → String
  cacheRoot : String
  moduleSymbols : List (String × Nat)

/-- The constructed facade: its `version` attribute, its attribute table,
and the heap identity of the module it loaded. -/
structure Facade where
  version : String
  attrs : String → Option PyValue
  modId : Nat

/-- Result of one facade construction: the effect trace, the outcome, the
heap allocation counter after construction, and the process-wide module
registry (`sys.modules` key set) after construction. -/
structure InitOut where
  trace : List Effect
  result : Except Err Facade
  world : Nat
  sysModules : List String

/-! ## Executable lookup and program search (`_find_program`, lines 121-133) -/

/-- `os.defpath` on POSIX. -/
def osDefpath : String := ":/bin:/usr/bin"

/-- The search-path list built in `__init__` line 29:
`os.environ.get("PATH", os.defpath).split(os.pathsep)`. -/
def searchPaths0 (env : Env) : List String :=
  strSplitChar ':' ((env.osEnv "PATH").getD osDefpath)

/-- Embedding of `shutil.which(cmd, path=os.pathsep.join(sp))`: a command
containing a separator is checked directly; an empty command never resolves;
an empty joined path makes `which` return `None`; otherwise the first
directory holding an executable at `dir/cmd` wins. -/
def whichFn (execPath : String → Bool) (sp : List String) (cmd : String) : Option String :=
  if cmd.data.contains '/' then
    if execPath cmd then some cmd else none
  else if cmd = "" then none
  else if String.intercalate ":" sp = "" then none
  else (sp.find? (fun d => execPath (joinPath d cmd))).map (fun d => joinPath d cmd)

/-- The error message `_find_program` raises, line 130-132. -/
def notFoundMsg (envVar : String) (names : List String) : String :=
  "Couldn't find " ++ envVar ++ " or any of the following executables in PATH: "
    ++ String.intercalate " " names

/-- The candidate loop of `_find_program` line 125-128: first name that
resolves wins. -/
def findProgramGo (execPath : String → Bool) (sp : List String) : List String → Option String
  | [] => none
  | n :: rest =>
    match whichFn execPath sp n with
    | some p => some p
    | none => findProgramGo execPath sp rest

/-- Embedding of `LLVMCPy._find_program`: try the override environment
variable's value (empty string when unset), then each candidate name, on the
given search paths; raise naming the variable and all candidates if none
resolve. -/
def findProgram (env : Env) (sp : List String) (envVar : String) (names : List String) :
    Except Err String :=
  match findProgramGo env.execPath sp (((env.osEnv envVar).getD "") :: names) with
  | some p => Except.ok p
  | none => Except.error (Err.toolNotFound (notFoundMsg envVar names))

/-! ## Cache key (`_get_module`, lines 42-48) -/

/-- The byte string hashed for the cache key: the helper path's UTF-8 bytes,
a single null separator byte, then the tool's own release-version string's
UTF-8 bytes (lines 43-44). -/
def cacheKeyBytes (helperPath toolVersion : String) : List Nat :=
  utf8Encode helperPath ++ 0 :: utf8Encode toolVersion

/-- The cache-directory name, line 46: the hash's hex digest, a hyphen, and
the toolkit's version string. `H` abstracts `hashlib.sha256(...).hexdigest()`. -/
def cacheDirName (H : List Nat → String) (helperPath toolVersion llvmVersion : String) :
    String :=
  H (cacheKeyBytes helperPath toolVersion) ++ "-" ++ llvmVersion

/-- The cache directory for a construction, line 47. -/
def cacheDirOf (env : Env) (llvmConfig : String) : String :=
  joinPath env.cacheRoot (cacheDirName env.hash llvmConfig env.toolVersion env.cfg.version)

/-- The artifact path inside the cache directory, line 48. -/
def artifactPathOf (env : Env) (llvmConfig : String) : String :=
  joinPath (cacheDirOf env llvmConfig) "llvmcpyimpl.py"

/-! ## Library resolution (`_make_wrapper`, lines 62-114) -/

/-- The declared library names matching the platform extension: lines 77-80.
`--libnames` output is split on single spaces; a name matches when the
platform extension occurs among the suffix chain of its final component. -/
def declaredMatches (env : Env) : List String :=
  (strSplitChar ' ' env.cfg.libnames).filter
    (fun n => (suffixes (baseName n)).contains (extensionFor env.platform))

/-- The descriptors the declared-names branch produces. -/
def declaredLibs (env : Env) : List LibraryDescriptor :=
  (declaredMatches env).map
    (fun n => ⟨joinPath env.cfg.libdir n, Origin.declaredShared⟩)

/-- The glob-scan results: lines 84-86. Entries matching `libLLVM*{ext}*`
that are regular files and not symbolic links. -/
def scanEntries (env : Env) : List DirEntry :=
  env.libdirEntries.filter
    (fun e => globMatch (extensionFor env.platform) e.name && e.isFile && !e.isSymlink)

/-- The descriptors the scan branch produces. -/
def scannedLibs (env : Env) : List LibraryDescriptor :=
  (scanEntries env).map
    (fun e => ⟨joinPath env.cfg.libdir e.name, Origin.scannedShared⟩)

/-- The synthesized library's output path: `path.parent / "libLLVM.so"`,
line 90 (`dir` is the cache directory holding the artifact). -/
def outputLibOf (dir : String) : String := joinPath dir "libLLVM.so"

/-- The full linker command line of lines 91-103. -/
def synthArgs (cpp dir : String) (ldf lbs syl : List String) : List String :=
  cpp :: "-shared" :: "-o" :: outputLibOf dir ::
    (ldf ++ ["-Wl,--whole-archive"] ++ lbs ++ ["-Wl,--no-whole-archive"] ++ syl)

/-- The `ValueError` message of lines 108-110. -/
def noLibMsg : String :=
  "No valid LLVM libraries found, LLVM must be built with BUILD_SHARED_LIBS"

/-- Embedding of `LLVMCPy._make_wrapper(path)` where the artifact path is
`dir/fname`. Returns the effect trace and either an error or the resolved
library set (which the Python code passes on to the generator). -/
def make_wrapper (env : Env) (sp : List String) (dir fname : String) :
    List Effect × Except Err (List LibraryDescriptor) :=
  match findProgram env sp "CPP" ["clang", "cpp", "gcc", "cc"] with
  | Except.error e => ([], Except.error e)
  | Except.ok cpp =>
    let t0 : List Effect := [Effect.queryConfig ["--libdir"], Effect.queryConfig ["--shared-mode"]]
    let finish : List Effect → List LibraryDescriptor →
        List Effect × Except Err (List LibraryDescriptor) := fun t libs =>
      if libs.isEmpty then (t, Except.error (Err.valueError noLibMsg))
      else (t ++ [Effect.queryConfig ["--includedir"], Effect.generate (joinPath dir fname)],
            Except.ok libs)
    if env.cfg.sharedMode = "shared" then
      finish (t0 ++ [Effect.queryConfig ["--libnames"]]) (declaredLibs env)
    else
      if scannedLibs env = [] ∧ env.cfg.sharedMode = "static" then
        match shlexSplit env.cfg.ldflags, shlexSplit env.cfg.libs,
              shlexSplit env.cfg.systemLibs with
        | some ldf, some lbs, some syl =>
          let args := synthArgs cpp dir ldf lbs syl
          let t := t0 ++ [Effect.queryConfig ["--ldflags"], Effect.queryConfig ["--libs"],
                          Effect.queryConfig ["--system-libs"], Effect.linkerCall args]
          if env.synthOk then
            finish t [⟨outputLibOf dir, Origin.synthesizedShared⟩]
          else (t, Except.error (Err.linkError args))
        | _, _, _ => (t0, Except.error Err.shlexError)
      else finish t0 (scannedLibs env)

/-! ## Module fetch and load (`_get_module`, lines 41-60) -/

/-- Result of `_get_module`: trace, outcome, heap counter. -/
structure GMOut where
  trace : List Effect
  result : Except Err PyModule
  world : Nat

/-- Embedding of `LLVMCPy._get_module`. The artifact exists test (line 49)
is the sole cache-hit criterion; on a miss the cache directory is created
with `parents=True, exist_ok=True` (line 50) and `_make_wrapper` generates
the artifact; in every case the artifact is executed into a fresh module
named `llvmcpy-<dirName>` (lines 57-59), allocating a new heap identity and
touching no process-wide registry. -/
def get_module (env : Env) (sp : List String) (llvmConfig version : String) (world : Nat) :
    GMOut :=
  let dirName := cacheDirName env.hash llvmConfig env.toolVersion version
  let cacheDir := joinPath env.cacheRoot dirName
  let artifact := joinPath cacheDir "llvmcpyimpl.py"
  let load : List Effect → GMOut := fun t =>
    ⟨t ++ [Effect.execArtifact ("llvmcpy-" ++ dirName) artifact],
     Except.ok ⟨"llvmcpy-" ++ dirName, env.moduleSymbols, world⟩, world + 1⟩
  if env.fileExists artifact then load []
  else
    match make_wrapper env sp cacheDir "llvmcpyimpl.py" with
    | (t, Except.error e) => ⟨Effect.mkdirCall cacheDir true true :: t, Except.error e, world⟩
    | (t, Except.ok _) => load (Effect.mkdirCall cacheDir true true :: t)

/-! ## Facade construction (`__init__`, lines 28-39) -/

/-- Python attribute assignment on an attribute table. -/
def setAttr (f : String → Option PyValue) (k : String) (v : PyValue) :
    String → Option PyValue :=
  fun x => if x = k then some v else f x

/-- The facade's attribute table after `__init__`: `self.version` is set
first (line 35), then every symbol of the loaded module is copied over
(lines 38-39), later assignments overriding earlier ones. -/
def buildAttrs (version : String) (symbols : List (String × Nat)) :
    String → Option PyValue :=
  symbols.foldl (fun f p => setAttr f p.1 (PyValue.ref p.2))
    (setAttr (fun _ => none) "version" (PyValue.str version))

/-- Embedding of `LLVMCPy.__init__(llvm_config=arg)`. `world` is the heap
allocation counter and `sysMods` the process-wide module registry, threaded
through to expose frame effects. -/
def llvmcpy_init (env : Env) (arg : Option String) (world : Nat) (sysMods : List String) :
    InitOut :=
  let sp0 := searchPaths0 env
  match (match arg with
         | some c => Except.ok c
         | none => findProgram env sp0 "LLVM_CONFIG" ["llvm-config"]) with
  | Except.error e => ⟨[], Except.error e, world, sysMods⟩
  | Except.ok llvmConfig =>
    let t0 : List Effect := [Effect.queryConfig ["--bindir"], Effect.queryConfig ["--version"]]
    let sp := env.cfg.bindir :: sp0
    let version := env.cfg.version
    let gm := get_module env sp llvmConfig version world
    match gm.result with
    | Except.error e => ⟨t0 ++ gm.trace, Except.error e, gm.world, sysMods⟩
    | Except.ok m =>
      ⟨t0 ++ gm.trace, Except.ok ⟨version, buildAttrs version m.symbols, m.instId⟩,
       gm.world, sysMods⟩

/-! ## Concrete environments used by the witnesses -/

/-- A representative helper-output record: a shared-mode toolchain shipping
one versioned shared library. -/
def baseCfg : ConfigOut where
  bindir := "/opt/llvm/bin"
  version := "14.0.0"
  libdir := "/opt/llvm/lib"
  sharedMode := "shared"
  libnames := "libLLVM-14.so"
  ldflags := "-L/opt/llvm/lib"
  libs := "-lLLVM-14"
  systemLibs := "-lz -lm"
  includedir := "/opt/llvm/include"

/-- A representative environment: no overrides set, `clang` present in
`/usr/bin`, a fixed-length digest function, a cold cache. -/
def baseEnv : Env where
  osEnv := fun _ => none
  execPath := fun p => p = "/usr/bin/clang"
  cfg := baseCfg
  platform := "linux"
  libdirEntries := []
  synthOk := true
  fileExists := fun _ => false
  toolVersion := "0.9.0"
  hash := fun _ => "cafe"
  cacheRoot := "/home/u/.cache/llvmcpy"
  moduleSymbols := [("create_context", 3), ("Value", 4)]

/-- Shared-mode environment whose declared list matches (C1 witness). -/
def envC1 : Env := baseEnv

/-- Shared-mode environment whose declared list does not match while the
library directory does contain a scannable shared object (C2). -/
def envC2 : Env :=
  { baseEnv with
    cfg := { baseCfg with libnames := "libLLVM-14.a" }
    libdirEntries := [⟨"libLLVM-14.so", true, false⟩] }

/-- Static-mode environment with an empty library directory and a
succeeding linker (C3). -/
def envC3 : Env :=
  { baseEnv with cfg := { baseCfg with sharedMode := "static", libnames := "libLLVM-14.a" } }

/-- Static-mode environment with an empty library directory and a failing
linker (C6). -/
def envC6 : Env := { envC3 with synthOk := false }

/-- Warm-cache environment: the artifact already exists (C5/C8/C9). -/
def envHit : Env := { baseEnv with fileExists := fun _ => true }

/-- Environment whose helper reports an unexpected shared-mode value and
whose library directory contains one scannable shared object plus a
symbolic link to it (C10). -/
def envC10 : Env :=
  { baseEnv with
    cfg := { baseCfg with sharedMode := "weird" }
    libdirEntries := [⟨"libLLVM-14.so", true, false⟩, ⟨"libLLVM.so", true, true⟩] }

/-- Environment with `PATH` set to the empty string and no overrides (C7). -/
def envC7 : Env :=
  { baseEnv with osEnv := fun v => if v = "PATH" then some "" else none }

/-- Static-mode environment whose library directory does contain a shared
object (plus a symlink the scan must drop): the scan branch succeeds. -/
def envScan : Env :=
  { baseEnv with
    cfg := { baseCfg with sharedMode := "static", libnames := "libLLVM-14.a" }
    libdirEntries := [⟨"libLLVM-14.so", true, false⟩, ⟨"libLLVM.so", true, true⟩] }

/-- Unexpected-mode environment with an empty library directory (C10). -/
def envC10e : Env := { envC10 with libdirEntries := [] }

/-- Whether an effect is a linker invocation. -/
def isLinkerCall : Effect → Bool
  | .linkerCall _ => true
  | _ => false

/-- Whether an effect is a generator invocation. -/
def isGenerate : Effect → Bool
  | .generate _ => true
  | _ => false

/-- Whether an effect is a cache-directory creation. -/
def isMkdirCall : Effect → Bool
  | .mkdirCall _ _ _ => true
  | _ => false

/-- Whether an effect is an artifact execution. -/
def isExecArtifact : Effect → Bool
  | .execArtifact _ _ => true
  | _ => false

/-- The helper path the witnesses pass as the explicit constructor
argument. -/
def lcW : String := "/opt/llvm/bin/llvm-config"

/-- The search-path list `_make_wrapper` sees in the witnesses. -/
def spW : List String := ["/usr/bin"]

/-! ## General lemmas -/

/-- Appending the same hyphen-version tail to two strings preserves
distinctness of the heads when the heads have equal length. -/
theorem append_tail_ne {h1 h2 tl : String} (hne : h1 ≠ h2) (hlen : h1.length = h2.length) :
    h1 ++ tl ≠ h2 ++ tl := by
  intro heq
  apply hne
  have hd : h1.data ++ tl.data = h2.data ++ tl.data := by
    rw [← String.data_append, ← String.data_append, heq]
  exact String.ext (List.append_inj hd hlen).1

/-- Appending distinct tails to the same head yields distinct strings. -/
theorem append_head_ne {h tl1 tl2 : String} (hne : tl1 ≠ tl2) :
    h ++ tl1 ≠ h ++ tl2 := by
  intro heq
  apply hne
  have hd : h.data ++ tl1.data = h.data ++ tl2.data := by
    rw [← String.data_append, ← String.data_append, heq]
  exact String.ext (List.append_cancel_left hd)

/-! ## C4: cache-key derivation -/

/-- C4: the cache-directory name is the hash digest of (helper-path bytes,
null separator, tool-version bytes) concatenated with a hyphen and the
toolkit version; identical inputs give identical names; a different toolkit
version gives a different name unconditionally; a different helper path or a
different tool version gives a different name whenever the digests (of fixed
digest length) do not collide. -/
theorem c4_cache_key_determinism (H : List Nat → String) (p t v p' t' v' : String)
    (hv : v ≠ v')
    (_hp : p ≠ p')
    (_ht : t ≠ t')
    (hHp : H (cacheKeyBytes p t) ≠ H (cacheKeyBytes p' t))
    (hHplen : (H (cacheKeyBytes p t)).length = (H (cacheKeyBytes p' t)).length)
    (hHt : H (cacheKeyBytes p t) ≠ H (cacheKeyBytes p t'))
    (hHtlen : (H (cacheKeyBytes p t)).length = (H (cacheKeyBytes p t')).length) :
    cacheDirName H p t v = H (utf8Encode p ++ 0 :: utf8Encode t) ++ "-" ++ v
    ∧ cacheDirName H p t v = cacheDirName H p t v
    ∧ cacheDirName H p t v ≠ cacheDirName H p t v'
    ∧ cacheDirName H p t v ≠ cacheDirName H p' t v
    ∧ cacheDirName H p t v ≠ cacheDirName H p t' v := by
  refine ⟨rfl, rfl, ?_, ?_, ?_⟩
  · exact append_head_ne hv
  · have h1 : H (cacheKeyBytes p t) ++ "-" ≠ H (cacheKeyBytes p' t) ++ "-" := by
      intro heq
      exact hHp (String.ext (List.append_inj
        (by rw [← String.data_append, ← String.data_append, heq]) hHplen).1)
    have h2 : (H (cacheKeyBytes p t) ++ "-").length = (H (cacheKeyBytes p' t) ++ "-").length := by
      rw [String.length_append, String.length_append, hHplen]
    exact append_tail_ne h1 h2
  · have h1 : H (cacheKeyBytes p t) ++ "-" ≠ H (cacheKeyBytes p t') ++ "-" := by
      intro heq
      exact hHt (String.ext (List.append_inj
        (by rw [← String.data_append, ← String.data_append, heq]) hHtlen).1)
    have h2 : (H (cacheKeyBytes p t) ++ "-").length = (H (cacheKeyBytes p t') ++ "-").length := by
      rw [String.length_append, String.length_append, hHtlen]
    exact append_tail_ne h1 h2

/-- A concrete digest function for the C4 witness: three pairwise distinct
fixed-length outputs on the three key byte strings exercised. -/
def witnessHash (l : List Nat) : String :=
  if 99 ∈ l then "x" else if 100 ∈ l then "y" else "z"

/-- Witness for C4 at concrete inputs. -/
theorem c4_cache_key_determinism_witness :
    cacheDirName witnessHash "a" "b" "1" = witnessHash (utf8Encode "a" ++ 0 :: utf8Encode "b") ++ "-" ++ "1"
    ∧ cacheDirName witnessHash "a" "b" "1" = cacheDirName witnessHash "a" "b" "1"
    ∧ cacheDirName witnessHash "a" "b" "1" ≠ cacheDirName witnessHash "a" "b" "2"
    ∧ cacheDirName witnessHash "a" "b" "1" ≠ cacheDirName witnessHash "c" "b" "1"
    ∧ cacheDirName witnessHash "a" "b" "1" ≠ cacheDirName witnessHash "a" "d" "1" :=
  c4_cache_key_determinism witnessHash "a" "b" "1" "c" "d" "2"
    (by decide) (by decide) (by decide) (by decide) (by decide) (by decide) (by decide)

/-! ## C7: program lookup -/

/-- Characterization of the candidate loop: success means some candidate
resolves and all earlier candidates fail. -/
theorem findProgramGo_eq_some (ex : String → Bool) (sp : List String) :
    ∀ (l : List String) (p : String),
      findProgramGo ex sp l = some p ↔
        ∃ pre n post, l = pre ++ n :: post ∧ (∀ m ∈ pre, whichFn ex sp m = none) ∧
          whichFn ex sp n = some p := by
  intro l
  induction l with
  | nil =>
    intro p
    constructor
    · intro h; simp [findProgramGo] at h
    · rintro ⟨pre, n, post, habs, -, -⟩
      exact absurd habs (by simp)
  | cons a rest ih =>
    intro p
    constructor
    · intro h
      unfold findProgramGo at h
      cases hw : whichFn ex sp a with
      | some q =>
        rw [hw] at h
        cases h
        exact ⟨[], a, rest, rfl, by simp, hw⟩
      | none =>
        rw [hw] at h
        obtain ⟨pre, n, post, hl, hpre, hn⟩ := (ih p).mp h
        exact ⟨a :: pre, n, post, by rw [hl, List.cons_append], by
          intro m hm
          rcases List.mem_cons.mp hm with h1 | h1
          · rw [h1]; exact hw
          · exact hpre m h1, hn⟩
    · rintro ⟨pre, n, post, hl, hpre, hn⟩
      cases pre with
      | nil =>
        cases hl
        unfold findProgramGo
        rw [hn]
      | cons b pre' =>
        rw [List.cons_append] at hl
        have hb : a = b ∧ rest = pre' ++ n :: post := List.cons_eq_cons.mp hl
        unfold findProgramGo
        have hwa : whichFn ex sp a = none := by
          rw [hb.1]; exact hpre b (List.mem_cons_self b pre')
        rw [hwa]
        exact (ih p).mpr ⟨pre', n, post, hb.2, fun m hm => hpre m (List.mem_cons_of_mem b hm), hn⟩

/-- Characterization of the candidate loop: failure means every candidate
fails to resolve. -/
theorem findProgramGo_eq_none (ex : String → Bool) (sp : List String) :
    ∀ l : List String,
      findProgramGo ex sp l = none ↔ ∀ n ∈ l, whichFn ex sp n = none := by
  intro l
  induction l with
  | nil => simp [findProgramGo]
  | cons a rest ih =>
    unfold findProgramGo
    cases hw : whichFn ex sp a with
    | some q =>
      simp only []
      constructor
      · intro h; cases h
      · intro h
        have := h a (List.mem_cons_self a rest)
        rw [hw] at this
        cases this
    | none =>
      simp only []
      constructor
      · intro h n hn
        rcases List.mem_cons.mp hn with h1 | h1
        · rw [h1]; exact hw
        · exact (ih.mp h) n h1
      · intro h
        exact ih.mpr (fun n hn => h n (List.mem_cons_of_mem a hn))

/-- Reduction of `_make_wrapper` in the static-mode, empty-scan branch:
the three link-flag queries run, the linker is invoked once with the exact
whole-archive command line, and the outcome depends on the linker's exit
status alone. -/
theorem mw_static_empty (env : Env) (sp : List String) (dir fname cpp : String)
    (ldf lbs syl : List String)
    (hcpp : findProgram env sp "CPP" ["clang", "cpp", "gcc", "cc"] = Except.ok cpp)
    (hmode : env.cfg.sharedMode = "static")
    (hscan : scannedLibs env = [])
    (hldf : shlexSplit env.cfg.ldflags = some ldf)
    (hlbs : shlexSplit env.cfg.libs = some lbs)
    (hsyl : shlexSplit env.cfg.systemLibs = some syl) :
    make_wrapper env sp dir fname =
      (if env.synthOk then
        ([Effect.queryConfig ["--libdir"], Effect.queryConfig ["--shared-mode"],
          Effect.queryConfig ["--ldflags"], Effect.queryConfig ["--libs"],
          Effect.queryConfig ["--system-libs"],
          Effect.linkerCall (synthArgs cpp dir ldf lbs syl),
          Effect.queryConfig ["--includedir"], Effect.generate (joinPath dir fname)],
         Except.ok [⟨outputLibOf dir, Origin.synthesizedShared⟩])
      else
        ([Effect.queryConfig ["--libdir"], Effect.queryConfig ["--shared-mode"],
          Effect.queryConfig ["--ldflags"], Effect.queryConfig ["--libs"],
          Effect.queryConfig ["--system-libs"],
          Effect.linkerCall (synthArgs cpp dir ldf lbs syl)],
         Except.error (Err.linkError (synthArgs cpp dir ldf lbs syl)))) := by
  unfold make_wrapper
  rw [hcpp]
  dsimp only
  rw [if_neg (show ¬env.cfg.sharedMode = "shared" by rw [hmode]; decide)]
  rw [if_pos ⟨hscan, hmode⟩]
  rw [hldf, hlbs, hsyl]
  dsimp only
  cases hok : env.synthOk with
  | true => simp
  | false => simp

/-- Every successful run of `_make_wrapper` ends by invoking the generator
on the artifact path. -/
theorem mw_ok_generate (env : Env) (sp : List String) (dir fname : String)
    (libs : List LibraryDescriptor)
    (h : (make_wrapper env sp dir fname).2 = Except.ok libs) :
    Effect.generate (joinPath dir fname) ∈ (make_wrapper env sp dir fname).1 := by
  unfold make_wrapper at h ⊢
  cases hfp : findProgram env sp "CPP" ["clang", "cpp", "gcc", "cc"] with
  | error e =>
    rw [hfp] at h
    simp at h
  | ok cpp =>
    rw [hfp] at h
    dsimp only at h ⊢
    by_cases h1 : env.cfg.sharedMode = "shared"
    · rw [if_pos h1] at h ⊢
      by_cases h2 : (declaredLibs env).isEmpty
      · rw [if_pos h2] at h
        simp at h
      · rw [if_neg h2] at h ⊢
        simp
    · rw [if_neg h1] at h ⊢
      by_cases h2 : scannedLibs env = [] ∧ env.cfg.sharedMode = "static"
      · rw [if_pos h2] at h ⊢
        cases hldf : shlexSplit env.cfg.ldflags with
        | none => rw [hldf] at h; simp at h
        | some ldf =>
          rw [hldf] at h
          cases hlbs : shlexSplit env.cfg.libs with
          | none => rw [hlbs] at h; simp at h
          | some lbs =>
            rw [hlbs] at h
            cases hsyl : shlexSplit env.cfg.systemLibs with
            | none => rw [hsyl] at h; simp at h
            | some syl =>
              rw [hsyl] at h
              dsimp only at h ⊢
              cases hok : env.synthOk with
              | true => simp
              | false => rw [hok] at h; simp at h
      · rw [if_neg h2] at h ⊢
        by_cases h3 : (scannedLibs env).isEmpty
        · rw [if_pos h3] at h
          simp at h
        · rw [if_neg h3] at h ⊢
          simp

/-- Shape of a successful `_get_module` result: the module is named from the
cache-directory name, carries the artifact's exported symbols, owns the heap
identity allocated at entry, the counter advances by one, and the artifact
was executed. -/
theorem get_module_cases (env : Env) (sp : List String) (lc v : String) (w : Nat) :
    (∃ m, (get_module env sp lc v w).result = Except.ok m
       ∧ m.unitName = "llvmcpy-" ++ cacheDirName env.hash lc env.toolVersion v
       ∧ m.symbols = env.moduleSymbols ∧ m.instId = w
       ∧ (get_module env sp lc v w).world = w + 1
       ∧ Effect.execArtifact m.unitName
           (joinPath (joinPath env.cacheRoot (cacheDirName env.hash lc env.toolVersion v))
             "llvmcpyimpl.py") ∈ (get_module env sp lc v w).trace)
    ∨ (∃ e, (get_module env sp lc v w).result = Except.error e) := by
  unfold get_module
  dsimp only
  split
  · exact Or.inl ⟨_, rfl, rfl, rfl, rfl, rfl, by simp⟩
  · split
    · exact Or.inr ⟨_, rfl⟩
    · exact Or.inl ⟨_, rfl, rfl, rfl, rfl, rfl, by simp⟩

/-- Facade construction never touches the process-wide module registry. -/
theorem init_sysModules (env : Env) (arg : Option String) (w : Nat) (sm : List String) :
    (llvmcpy_init env arg w sm).sysModules = sm := by
  simp only [llvmcpy_init]
  cases hfp : (match arg with
               | some c => Except.ok c
               | none => findProgram env (searchPaths0 env) "LLVM_CONFIG" ["llvm-config"]) with
  | error e => rfl
  | ok lc =>
    dsimp only
    cases hgm : (get_module env (env.cfg.bindir :: searchPaths0 env) lc env.cfg.version w).result with
    | error e => rfl
    | ok m => rfl

/-- Shape of a successful facade construction: version and attributes come
from the helper's version output and the loaded symbols, the module identity
is the heap id allocated at entry, the counter advances by one, and the
artifact was executed during construction. -/
theorem init_ok_shape (env : Env) (arg : Option String) (w : Nat) (sm : List String)
    (f : Facade) (h : (llvmcpy_init env arg w sm).result = Except.ok f) :
    f.version = env.cfg.version
    ∧ f.attrs = buildAttrs env.cfg.version env.moduleSymbols
    ∧ f.modId = w
    ∧ (llvmcpy_init env arg w sm).world = w + 1
    ∧ (∃ nm p, Effect.execArtifact nm p ∈ (llvmcpy_init env arg w sm).trace) := by
  simp only [llvmcpy_init] at h ⊢
  cases hfp : (match arg with
               | some c => Except.ok c
               | none => findProgram env (searchPaths0 env) "LLVM_CONFIG" ["llvm-config"]) with
  | error e =>
    rw [hfp] at h
    simp at h
  | ok lc =>
    rw [hfp] at h
    dsimp only at h ⊢
    rcases get_module_cases env (env.cfg.bindir :: searchPaths0 env) lc env.cfg.version w with
      ⟨m, hm, hnm, hsym, hid, hw, hexec⟩ | ⟨e, he⟩
    · rw [hm] at h ⊢
      dsimp only at h ⊢
      cases h
      refine ⟨rfl, by rw [hsym], hid, hw,
        ⟨m.unitName,
         joinPath (joinPath env.cacheRoot (cacheDirName env.hash lc env.toolVersion env.cfg.version))
           "llvmcpyimpl.py", ?_⟩⟩
      exact List.mem_append_right _ hexec
    · rw [he] at h
      simp at h

/-- Attribute lookups under the copy loop, at a key none of the copied
symbols uses: the base table answers. -/
theorem attrs_foldl_notMem (l : List (String × Nat)) (f0 : String → Option PyValue)
    (k : String) (h : k ∉ l.map Prod.fst) :
    l.foldl (fun f p => setAttr f p.1 (PyValue.ref p.2)) f0 k = f0 k := by
  induction l generalizing f0 with
  | nil => rfl
  | cons p tl ih =>
    rw [List.map_cons] at h
    have h1 : k ≠ p.1 := fun he => h (he ▸ List.mem_cons_self p.1 (tl.map Prod.fst))
    have h2 : k ∉ tl.map Prod.fst := fun hm => h (List.mem_cons_of_mem p.1 hm)
    rw [List.foldl_cons, ih _ h2]
    simp [setAttr, h1]

/-- Attribute lookups under the copy loop, at a copied symbol's key (keys
distinct, as `dir()` guarantees): the symbol's value answers. -/
theorem attrs_foldl_mem (l : List (String × Nat)) (f0 : String → Option PyValue)
    (k : String) (v : Nat) (hmem : (k, v) ∈ l) (hd : (l.map Prod.fst).Nodup) :
    l.foldl (fun f p => setAttr f p.1 (PyValue.ref p.2)) f0 k = some (PyValue.ref v) := by
  induction l generalizing f0 with
  | nil => cases hmem
  | cons p tl ih =>
    rw [List.map_cons, List.nodup_cons] at hd
    rw [List.foldl_cons]
    rcases List.mem_cons.mp hmem with h1 | h1
    · have hk : p.1 = k := by rw [← h1]
      have hv : p.2 = v := by rw [← h1]
      rw [attrs_foldl_notMem tl _ k (by rw [← hk]; exact hd.1)]
      simp [setAttr, hk, hv]
    · exact ih _ h1 hd.2

/-- C7: program lookup tries the override variable's value first, then each
candidate name in order, returning the first that resolves on the search
path; when none resolves it fails with a message naming the override
variable and every candidate; in particular with `PATH` empty and no
override set, facade construction fails naming `LLVM_CONFIG` and
`llvm-config`. -/
theorem c7_program_lookup (env : Env) (sp : List String) (var : String)
    (names : List String) (p : String) (e : Err) (w : Nat) (sm : List String)
    (hpath : env.osEnv "PATH" = some "")
    (hover : env.osEnv "LLVM_CONFIG" = none) :
    (findProgram env sp var names = Except.ok p ↔
       ∃ pre n post, ((env.osEnv var).getD "" :: names) = pre ++ n :: post
         ∧ (∀ m ∈ pre, whichFn env.execPath sp m = none)
         ∧ whichFn env.execPath sp n = some p)
    ∧ (findProgram env sp var names = Except.error e ↔
       ((∀ n ∈ ((env.osEnv var).getD "" :: names), whichFn env.execPath sp n = none)
         ∧ e = Err.toolNotFound (notFoundMsg var names)))
    ∧ llvmcpy_init env none w sm =
        ⟨[], Except.error (Err.toolNotFound (notFoundMsg "LLVM_CONFIG" ["llvm-config"])), w, sm⟩
    ∧ strContains (notFoundMsg "LLVM_CONFIG" ["llvm-config"]) "LLVM_CONFIG" = true
    ∧ strContains (notFoundMsg "LLVM_CONFIG" ["llvm-config"]) "llvm-config" = true := by
  refine ⟨?_, ?_, ?_, by decide, by decide⟩
  · unfold findProgram
    cases hgo : findProgramGo env.execPath sp ((env.osEnv var).getD "" :: names) with
    | some q =>
      simp only []
      constructor
      · intro h
        cases h
        exact (findProgramGo_eq_some env.execPath sp _ p).mp hgo
      · intro h
        have h2 := (findProgramGo_eq_some env.execPath sp _ p).mpr h
        rw [hgo] at h2
        cases h2
        rfl
    | none =>
      simp only []
      constructor
      · intro h
        cases h
      · intro h
        have h2 := (findProgramGo_eq_some env.execPath sp _ p).mpr h
        rw [hgo] at h2
        cases h2
  · unfold findProgram
    cases hgo : findProgramGo env.execPath sp ((env.osEnv var).getD "" :: names) with
    | some q =>
      simp only []
      constructor
      · intro h
        cases h
      · intro h
        have h2 := (findProgramGo_eq_none env.execPath sp _).mpr h.1
        rw [hgo] at h2
        cases h2
    | none =>
      simp only []
      constructor
      · intro h
        cases h
        exact ⟨(findProgramGo_eq_none env.execPath sp _).mp hgo, rfl⟩
      · intro h
        rw [h.2]
  · have hsp : searchPaths0 env = [""] := by
      unfold searchPaths0
      rw [hpath]
      decide
    have hfp : findProgram env (searchPaths0 env) "LLVM_CONFIG" ["llvm-config"] =
        Except.error (Err.toolNotFound (notFoundMsg "LLVM_CONFIG" ["llvm-config"])) := by
      rw [hsp]
      unfold findProgram
      rw [hover]
      rfl
    simp only [llvmcpy_init, hfp]

/-- Witness for C7: with `PATH=""` and no override, construction fails with
the message naming `LLVM_CONFIG` and `llvm-config`. -/
theorem c7_program_lookup_witness :
    llvmcpy_init envC7 none 0 [] =
        ⟨[], Except.error (Err.toolNotFound (notFoundMsg "LLVM_CONFIG" ["llvm-config"])), 0, []⟩
    ∧ strContains (notFoundMsg "LLVM_CONFIG" ["llvm-config"]) "LLVM_CONFIG" = true
    ∧ strContains (notFoundMsg "LLVM_CONFIG" ["llvm-config"]) "llvm-config" = true :=
  (c7_program_lookup envC7 spW "CPP" ["clang"] "/usr/bin/clang" Err.shlexError 0 []
    (by decide) (by decide)).2.2

/-! ## C1: shared mode with a matching declared name -/

/-- C1: when the helper reports shared mode and at least one declared name
carries the platform extension in its suffix chain, the resolver succeeds
with exactly the matching declared names joined to the library directory,
the set is non-empty, and the synthesizer is never invoked. -/
theorem c1_shared_declared (env : Env) (sp : List String) (dir fname cpp : String)
    (hcpp : findProgram env sp "CPP" ["clang", "cpp", "gcc", "cc"] = Except.ok cpp)
    (hmode : env.cfg.sharedMode = "shared")
    (hne : declaredMatches env ≠ []) :
    (make_wrapper env sp dir fname).2 = Except.ok (declaredLibs env)
    ∧ declaredLibs env =
        (declaredMatches env).map (fun n => ⟨joinPath env.cfg.libdir n, Origin.declaredShared⟩)
    ∧ declaredLibs env ≠ []
    ∧ ((make_wrapper env sp dir fname).1.filter isLinkerCall) = [] := by
  have hld : declaredLibs env ≠ [] := by
    simp only [declaredLibs, ne_eq, List.map_eq_nil_iff]
    exact hne
  have hldE : (declaredLibs env).isEmpty = false := by
    simpa [List.isEmpty_iff] using hld
  refine ⟨?_, rfl, hld, ?_⟩
  · unfold make_wrapper
    rw [hcpp]
    simp [hmode, hldE]
  · unfold make_wrapper
    rw [hcpp]
    simp [hmode, hldE, isLinkerCall]

/-- Witness for C1 at a concrete shared-mode toolchain. -/
theorem c1_shared_declared_witness :
    (make_wrapper envC1 spW "/c" "llvmcpyimpl.py").2 = Except.ok (declaredLibs envC1)
    ∧ declaredLibs envC1 =
        (declaredMatches envC1).map
          (fun n => ⟨joinPath envC1.cfg.libdir n, Origin.declaredShared⟩)
    ∧ declaredLibs envC1 ≠ []
    ∧ ((make_wrapper envC1 spW "/c" "llvmcpyimpl.py").1.filter isLinkerCall) = [] :=
  c1_shared_declared envC1 spW "/c" "llvmcpyimpl.py" "/usr/bin/clang"
    (by decide) (by decide) (by decide)

/-! ## C2: the scan fallback -/

/-- C2 counterexample: a shared-mode toolchain with no matching declared
name and a perfectly scannable shared object in the library directory; the
resolver does not fall back to the scan, it fails with the
no-usable-library error. -/
theorem c2_scan_fallback_counterexample :
    envC2.cfg.sharedMode = "shared"
    ∧ declaredMatches envC2 = []
    ∧ scannedLibs envC2 = [⟨joinPath envC2.cfg.libdir "libLLVM-14.so", Origin.scannedShared⟩]
    ∧ (make_wrapper envC2 spW "/c" "llvmcpyimpl.py").2 = Except.error (Err.valueError noLibMsg)
    ∧ (make_wrapper envC2 spW "/c" "llvmcpyimpl.py").2 ≠ Except.ok (scannedLibs envC2) := by
  decide

/-- C2 (amended): the libDir scan fallback applies to every reported mode
other than `shared` (not to `shared` with an empty match list, where
resolution fails instead); the scan keeps regular non-symlink files matching
the glob, each becoming a `ScannedShared` descriptor, and no synthesis
happens when the scan succeeds. -/
theorem c2_scan_fallback (env : Env) (sp : List String) (dir fname cpp : String)
    (hcpp : findProgram env sp "CPP" ["clang", "cpp", "gcc", "cc"] = Except.ok cpp)
    (hmode : env.cfg.sharedMode ≠ "shared")
    (hscan : scannedLibs env ≠ []) :
    (make_wrapper env sp dir fname).2 = Except.ok (scannedLibs env)
    ∧ scannedLibs env =
        (env.libdirEntries.filter
          (fun e => globMatch (extensionFor env.platform) e.name && e.isFile && !e.isSymlink)).map
          (fun e => ⟨joinPath env.cfg.libdir e.name, Origin.scannedShared⟩)
    ∧ ((make_wrapper env sp dir fname).1.filter isLinkerCall) = [] := by
  have hne : ¬(scannedLibs env = [] ∧ env.cfg.sharedMode = "static") := fun hc => hscan hc.1
  have hE : (scannedLibs env).isEmpty = false := by
    simpa [List.isEmpty_iff] using hscan
  refine ⟨?_, rfl, ?_⟩
  · unfold make_wrapper
    rw [hcpp]
    dsimp only
    rw [if_neg hmode, if_neg hne]
    simp [hE]
  · unfold make_wrapper
    rw [hcpp]
    dsimp only
    rw [if_neg hmode, if_neg hne]
    simp [hE, isLinkerCall]

/-- Witness for C2's amended statement at a static-mode toolchain whose
library directory holds a shared object and a symlink the scan drops. -/
theorem c2_scan_fallback_witness :
    (make_wrapper envScan spW "/c" "llvmcpyimpl.py").2 = Except.ok (scannedLibs envScan)
    ∧ scannedLibs envScan =
        (envScan.libdirEntries.filter
          (fun e => globMatch (extensionFor envScan.platform) e.name && e.isFile && !e.isSymlink)).map
          (fun e => ⟨joinPath envScan.cfg.libdir e.name, Origin.scannedShared⟩)
    ∧ ((make_wrapper envScan spW "/c" "llvmcpyimpl.py").1.filter isLinkerCall) = [] :=
  c2_scan_fallback envScan spW "/c" "llvmcpyimpl.py" "/usr/bin/clang"
    (by decide) (by decide) (by decide)

/-! ## C10: unexpected shared-mode values -/

/-- C10: for a shared-mode value that is neither `shared` nor `static`, the
scan still runs but synthesis never does — it is gated on the value being
exactly `static` — so an empty scan fails with the no-usable-library error
(shown on `envE`/`envS`, one with an empty and one with a non-empty scan). -/
theorem c10_unexpected_mode (envE envS : Env) (sp sp2 : List String)
    (dir fname cpp dir2 fname2 cpp2 : String)
    (hcppE : findProgram envE sp "CPP" ["clang", "cpp", "gcc", "cc"] = Except.ok cpp)
    (h1E : envE.cfg.sharedMode ≠ "shared")
    (h2E : envE.cfg.sharedMode ≠ "static")
    (hscanE : scannedLibs envE = [])
    (hcppS : findProgram envS sp2 "CPP" ["clang", "cpp", "gcc", "cc"] = Except.ok cpp2)
    (h1S : envS.cfg.sharedMode ≠ "shared")
    (_h2S : envS.cfg.sharedMode ≠ "static")
    (hscanS : scannedLibs envS ≠ []) :
    (make_wrapper envE sp dir fname).2 = Except.error (Err.valueError noLibMsg)
    ∧ ((make_wrapper envE sp dir fname).1.filter isLinkerCall) = []
    ∧ (make_wrapper envS sp2 dir2 fname2).2 = Except.ok (scannedLibs envS)
    ∧ ((make_wrapper envS sp2 dir2 fname2).1.filter isLinkerCall) = [] := by
  have hneE : ¬(scannedLibs envE = [] ∧ envE.cfg.sharedMode = "static") := fun hc => h2E hc.2
  have hEE : (scannedLibs envE).isEmpty = true := by
    simp [List.isEmpty_iff, hscanE]
  have hneS : ¬(scannedLibs envS = [] ∧ envS.cfg.sharedMode = "static") := fun hc => hscanS hc.1
  have hES : (scannedLibs envS).isEmpty = false := by
    simpa [List.isEmpty_iff] using hscanS
  refine ⟨?_, ?_, ?_, ?_⟩
  · unfold make_wrapper
    rw [hcppE]
    dsimp only
    rw [if_neg h1E, if_neg hneE]
    simp [hEE]
  · unfold make_wrapper
    rw [hcppE]
    dsimp only
    rw [if_neg h1E, if_neg hneE]
    simp [hEE, isLinkerCall]
  · unfold make_wrapper
    rw [hcppS]
    dsimp only
    rw [if_neg h1S, if_neg hneS]
    simp [hES]
  · unfold make_wrapper
    rw [hcppS]
    dsimp only
    rw [if_neg h1S, if_neg hneS]
    simp [hES, isLinkerCall]

/-- Witness for C10 at a toolchain reporting shared-mode `weird`, with an
empty and a populated library directory. -/
theorem c10_unexpected_mode_witness :
    (make_wrapper envC10e spW "/c" "llvmcpyimpl.py").2 = Except.error (Err.valueError noLibMsg)
    ∧ ((make_wrapper envC10e spW "/c" "llvmcpyimpl.py").1.filter isLinkerCall) = []
    ∧ (make_wrapper envC10 spW "/c" "llvmcpyimpl.py").2 = Except.ok (scannedLibs envC10)
    ∧ ((make_wrapper envC10 spW "/c" "llvmcpyimpl.py").1.filter isLinkerCall) = [] :=
  c10_unexpected_mode envC10e envC10 spW spW "/c" "llvmcpyimpl.py" "/usr/bin/clang"
    "/c" "llvmcpyimpl.py" "/usr/bin/clang"
    (by decide) (by decide) (by decide) (by decide)
    (by decide) (by decide) (by decide) (by decide)

/-! ## C3: synthesis from a static archive -/

/-- C3: for a static-mode toolchain whose scan finds nothing and whose link
succeeds, the linker is invoked exactly once, as
`cpp -shared -o <out> <ldflags> -Wl,--whole-archive <libs>
-Wl,--no-whole-archive <system-libs>` with the flag strings tokenized by
the shlex rules, and the synthesized library is the sole descriptor. -/
theorem c3_static_synthesis (env : Env) (sp : List String) (dir fname cpp : String)
    (ldf lbs syl : List String)
    (hcpp : findProgram env sp "CPP" ["clang", "cpp", "gcc", "cc"] = Except.ok cpp)
    (hmode : env.cfg.sharedMode = "static")
    (hscan : scannedLibs env = [])
    (hok : env.synthOk = true)
    (hldf : shlexSplit env.cfg.ldflags = some ldf)
    (hlbs : shlexSplit env.cfg.libs = some lbs)
    (hsyl : shlexSplit env.cfg.systemLibs = some syl) :
    ((make_wrapper env sp dir fname).1.filter isLinkerCall) =
      [Effect.linkerCall (synthArgs cpp dir ldf lbs syl)]
    ∧ synthArgs cpp dir ldf lbs syl =
        cpp :: "-shared" :: "-o" :: outputLibOf dir ::
          (ldf ++ ["-Wl,--whole-archive"] ++ lbs ++ ["-Wl,--no-whole-archive"] ++ syl)
    ∧ (make_wrapper env sp dir fname).2 =
        Except.ok [⟨outputLibOf dir, Origin.synthesizedShared⟩] := by
  have hmw := mw_static_empty env sp dir fname cpp ldf lbs syl hcpp hmode hscan hldf hlbs hsyl
  rw [hok] at hmw
  simp only [if_true] at hmw
  rw [hmw]
  refine ⟨?_, rfl, rfl⟩
  simp [isLinkerCall]

/-- Witness for C3 at a concrete static-only toolchain. -/
theorem c3_static_synthesis_witness :
    ((make_wrapper envC3 spW "/c" "llvmcpyimpl.py").1.filter isLinkerCall) =
      [Effect.linkerCall
        (synthArgs "/usr/bin/clang" "/c" ["-L/opt/llvm/lib"] ["-lLLVM-14"] ["-lz", "-lm"])]
    ∧ synthArgs "/usr/bin/clang" "/c" ["-L/opt/llvm/lib"] ["-lLLVM-14"] ["-lz", "-lm"] =
        "/usr/bin/clang" :: "-shared" :: "-o" :: outputLibOf "/c" ::
          (["-L/opt/llvm/lib"] ++ ["-Wl,--whole-archive"] ++ ["-lLLVM-14"]
            ++ ["-Wl,--no-whole-archive"] ++ ["-lz", "-lm"])
    ∧ (make_wrapper envC3 spW "/c" "llvmcpyimpl.py").2 =
        Except.ok [⟨outputLibOf "/c", Origin.synthesizedShared⟩] :=
  c3_static_synthesis envC3 spW "/c" "llvmcpyimpl.py" "/usr/bin/clang"
    ["-L/opt/llvm/lib"] ["-lLLVM-14"] ["-lz", "-lm"]
    (by decide) (by decide) (by decide) (by decide) (by decide) (by decide) (by decide)

/-! ## C6: failed synthesis aborts construction -/

/-- C6: when a static-mode toolchain with an empty scan drives construction
into synthesis and the linker exits non-zero, construction fails with the
link error, nothing falls back, and the generator never runs — no artifact
file is written at the artifact path, so the failure cannot become a false
cache hit. -/
theorem c6_link_failure (env : Env) (lc : String) (w : Nat) (sm : List String)
    (cpp : String) (ldf lbs syl : List String)
    (hmiss : env.fileExists (artifactPathOf env lc) = false)
    (hcpp : findProgram env (env.cfg.bindir :: searchPaths0 env) "CPP"
        ["clang", "cpp", "gcc", "cc"] = Except.ok cpp)
    (hmode : env.cfg.sharedMode = "static")
    (hscan : scannedLibs env = [])
    (hfail : env.synthOk = false)
    (hldf : shlexSplit env.cfg.ldflags = some ldf)
    (hlbs : shlexSplit env.cfg.libs = some lbs)
    (hsyl : shlexSplit env.cfg.systemLibs = some syl) :
    (llvmcpy_init env (some lc) w sm).result =
      Except.error (Err.linkError (synthArgs cpp (cacheDirOf env lc) ldf lbs syl))
    ∧ ((llvmcpy_init env (some lc) w sm).trace.filter isGenerate) = []
    ∧ Effect.generate (artifactPathOf env lc) ∉ (llvmcpy_init env (some lc) w sm).trace := by
  have hmw := mw_static_empty env (env.cfg.bindir :: searchPaths0 env) (cacheDirOf env lc)
    "llvmcpyimpl.py" cpp ldf lbs syl hcpp hmode hscan hldf hlbs hsyl
  rw [hfail] at hmw
  simp only [Bool.false_eq_true, if_false] at hmw
  unfold cacheDirOf at hmw
  unfold artifactPathOf cacheDirOf at hmiss
  have hinit : llvmcpy_init env (some lc) w sm =
      ⟨[Effect.queryConfig ["--bindir"], Effect.queryConfig ["--version"],
        Effect.mkdirCall (joinPath env.cacheRoot
          (cacheDirName env.hash lc env.toolVersion env.cfg.version)) true true,
        Effect.queryConfig ["--libdir"], Effect.queryConfig ["--shared-mode"],
        Effect.queryConfig ["--ldflags"], Effect.queryConfig ["--libs"],
        Effect.queryConfig ["--system-libs"],
        Effect.linkerCall (synthArgs cpp (joinPath env.cacheRoot
          (cacheDirName env.hash lc env.toolVersion env.cfg.version)) ldf lbs syl)],
       Except.error (Err.linkError (synthArgs cpp (joinPath env.cacheRoot
          (cacheDirName env.hash lc env.toolVersion env.cfg.version)) ldf lbs syl)),
       w, sm⟩ := by
    simp only [llvmcpy_init]
    simp only [get_module]
    rw [if_neg (by simp [hmiss])]
    rw [hmw]
    rfl
  refine ⟨by rw [hinit]; rfl, by rw [hinit]; simp [isGenerate], by rw [hinit]; simp⟩

/-- Witness for C6: a failing link on a static-only toolchain yields the
link error and leaves no generator call in the trace. -/
theorem c6_link_failure_witness :
    (llvmcpy_init envC6 (some lcW) 0 []).result =
      Except.error (Err.linkError
        (synthArgs "/usr/bin/clang" (cacheDirOf envC6 lcW)
          ["-L/opt/llvm/lib"] ["-lLLVM-14"] ["-lz", "-lm"]))
    ∧ ((llvmcpy_init envC6 (some lcW) 0 []).trace.filter isGenerate) = []
    ∧ Effect.generate (artifactPathOf envC6 lcW) ∉ (llvmcpy_init envC6 (some lcW) 0 []).trace :=
  c6_link_failure envC6 lcW 0 [] "/usr/bin/clang"
    ["-L/opt/llvm/lib"] ["-lLLVM-14"] ["-lz", "-lm"]
    (by decide) (by decide) (by decide) (by decide) (by decide)
    (by decide) (by decide) (by decide)

/-! ## C5: cache-hit semantics -/

/-- C5 counterexample: on a cache hit, construction still performs the
`--bindir` helper query, which is not a version query, so the trace is not
restricted to the version-query calls needed for the cache key. -/
theorem c5_cache_hit_counterexample :
    envHit.fileExists (artifactPathOf envHit lcW) = true
    ∧ Effect.queryConfig ["--bindir"] ∈ (llvmcpy_init envHit (some lcW) 0 []).trace
    ∧ Effect.queryConfig ["--bindir"] ≠ Effect.queryConfig ["--version"] := by
  decide

/-- C5 (amended): a hit is decided solely by existence of the artifact at
the expected path; on a hit the trace is exactly the `--bindir` and
`--version` helper queries followed by the artifact execution — zero linker,
generator or mkdir calls — and the facade is still built; on a miss the
cache directory is created with `parents=True, exist_ok=True` before the
generator writes the artifact. -/
theorem c5_cache_semantics (envH envM : Env) (lcH lcM : String) (w : Nat) (sm : List String)
    (libsM : List LibraryDescriptor)
    (hHit : envH.fileExists (artifactPathOf envH lcH) = true)
    (hMiss : envM.fileExists (artifactPathOf envM lcM) = false)
    (hGen : (make_wrapper envM (envM.cfg.bindir :: searchPaths0 envM) (cacheDirOf envM lcM)
        "llvmcpyimpl.py").2 = Except.ok libsM) :
    (llvmcpy_init envH (some lcH) w sm).trace =
        [Effect.queryConfig ["--bindir"], Effect.queryConfig ["--version"],
         Effect.execArtifact
           ("llvmcpy-" ++ cacheDirName envH.hash lcH envH.toolVersion envH.cfg.version)
           (artifactPathOf envH lcH)]
    ∧ ((llvmcpy_init envH (some lcH) w sm).trace.filter isLinkerCall) = []
    ∧ ((llvmcpy_init envH (some lcH) w sm).trace.filter isGenerate) = []
    ∧ ((llvmcpy_init envH (some lcH) w sm).trace.filter isMkdirCall) = []
    ∧ (llvmcpy_init envH (some lcH) w sm).result =
        Except.ok ⟨envH.cfg.version, buildAttrs envH.cfg.version envH.moduleSymbols, w⟩
    ∧ (llvmcpy_init envM (some lcM) w sm).trace =
        [Effect.queryConfig ["--bindir"], Effect.queryConfig ["--version"],
         Effect.mkdirCall (cacheDirOf envM lcM) true true]
          ++ (make_wrapper envM (envM.cfg.bindir :: searchPaths0 envM) (cacheDirOf envM lcM)
              "llvmcpyimpl.py").1
          ++ [Effect.execArtifact
              ("llvmcpy-" ++ cacheDirName envM.hash lcM envM.toolVersion envM.cfg.version)
              (artifactPathOf envM lcM)]
    ∧ Effect.generate (artifactPathOf envM lcM) ∈
        (make_wrapper envM (envM.cfg.bindir :: searchPaths0 envM) (cacheDirOf envM lcM)
          "llvmcpyimpl.py").1 := by
  unfold artifactPathOf at hHit hMiss
  unfold cacheDirOf at hHit hMiss hGen
  unfold artifactPathOf cacheDirOf
  have hHinit : llvmcpy_init envH (some lcH) w sm =
      ⟨[Effect.queryConfig ["--bindir"], Effect.queryConfig ["--version"],
        Effect.execArtifact
          ("llvmcpy-" ++ cacheDirName envH.hash lcH envH.toolVersion envH.cfg.version)
          (joinPath (joinPath envH.cacheRoot
            (cacheDirName envH.hash lcH envH.toolVersion envH.cfg.version)) "llvmcpyimpl.py")],
       Except.ok ⟨envH.cfg.version, buildAttrs envH.cfg.version envH.moduleSymbols, w⟩,
       w + 1, sm⟩ := by
    simp only [llvmcpy_init]
    simp only [get_module]
    rw [if_pos hHit]
    rfl
  have hpair : make_wrapper envM (envM.cfg.bindir :: searchPaths0 envM)
      (joinPath envM.cacheRoot (cacheDirName envM.hash lcM envM.toolVersion envM.cfg.version))
      "llvmcpyimpl.py" =
      ((make_wrapper envM (envM.cfg.bindir :: searchPaths0 envM)
        (joinPath envM.cacheRoot (cacheDirName envM.hash lcM envM.toolVersion envM.cfg.version))
        "llvmcpyimpl.py").1, Except.ok libsM) := by
    rw [← hGen]
  have hMinit : (llvmcpy_init envM (some lcM) w sm).trace =
      [Effect.queryConfig ["--bindir"], Effect.queryConfig ["--version"],
       Effect.mkdirCall (joinPath envM.cacheRoot
         (cacheDirName envM.hash lcM envM.toolVersion envM.cfg.version)) true true]
        ++ (make_wrapper envM (envM.cfg.bindir :: searchPaths0 envM)
            (joinPath envM.cacheRoot
              (cacheDirName envM.hash lcM envM.toolVersion envM.cfg.version))
            "llvmcpyimpl.py").1
        ++ [Effect.execArtifact
            ("llvmcpy-" ++ cacheDirName envM.hash lcM envM.toolVersion envM.cfg.version)
            (joinPath (joinPath envM.cacheRoot
              (cacheDirName envM.hash lcM envM.toolVersion envM.cfg.version))
              "llvmcpyimpl.py")] := by
    simp only [llvmcpy_init]
    simp only [get_module]
    rw [if_neg (by simp [hMiss])]
    rw [hpair]
    dsimp only
    simp
  refine ⟨by rw [hHinit], by rw [hHinit]; simp [isLinkerCall],
    by rw [hHinit]; simp [isGenerate], by rw [hHinit]; simp [isMkdirCall],
    by rw [hHinit], hMinit, ?_⟩
  exact mw_ok_generate envM (envM.cfg.bindir :: searchPaths0 envM)
    (joinPath envM.cacheRoot (cacheDirName envM.hash lcM envM.toolVersion envM.cfg.version))
    "llvmcpyimpl.py" libsM hGen

/-- Witness for C5's amended statement: a warm cache (hit) and a cold cache
(miss) against the representative toolchain. -/
theorem c5_cache_semantics_witness :
    (llvmcpy_init envHit (some lcW) 0 []).trace =
        [Effect.queryConfig ["--bindir"], Effect.queryConfig ["--version"],
         Effect.execArtifact
           ("llvmcpy-" ++ cacheDirName envHit.hash lcW envHit.toolVersion envHit.cfg.version)
           (artifactPathOf envHit lcW)]
    ∧ ((llvmcpy_init envHit (some lcW) 0 []).trace.filter isLinkerCall) = []
    ∧ ((llvmcpy_init envHit (some lcW) 0 []).trace.filter isGenerate) = []
    ∧ ((llvmcpy_init envHit (some lcW) 0 []).trace.filter isMkdirCall) = []
    ∧ (llvmcpy_init envHit (some lcW) 0 []).result =
        Except.ok ⟨envHit.cfg.version, buildAttrs envHit.cfg.version envHit.moduleSymbols, 0⟩
    ∧ (llvmcpy_init baseEnv (some lcW) 0 []).trace =
        [Effect.queryConfig ["--bindir"], Effect.queryConfig ["--version"],
         Effect.mkdirCall (cacheDirOf baseEnv lcW) true true]
          ++ (make_wrapper baseEnv (baseEnv.cfg.bindir :: searchPaths0 baseEnv)
              (cacheDirOf baseEnv lcW) "llvmcpyimpl.py").1
          ++ [Effect.execArtifact
              ("llvmcpy-" ++ cacheDirName baseEnv.hash lcW baseEnv.toolVersion baseEnv.cfg.version)
              (artifactPathOf baseEnv lcW)]
    ∧ Effect.generate (artifactPathOf baseEnv lcW) ∈
        (make_wrapper baseEnv (baseEnv.cfg.bindir :: searchPaths0 baseEnv)
          (cacheDirOf baseEnv lcW) "llvmcpyimpl.py").1 :=
  c5_cache_semantics envHit baseEnv lcW lcW 0 [] (declaredLibs baseEnv)
    (by decide) (by decide) (by decide)

/-! ## C8: attribute re-export -/

/-- C8: a successfully constructed facade carries every symbol the loaded
module exports (keys distinct, none named `version`, as the generated
binding provides), plus a `version` attribute holding the toolkit's
version string. -/
theorem c8_facade_reexport (env : Env) (arg : Option String) (w : Nat) (sm : List String)
    (f : Facade) (k : String) (v : Nat)
    (hres : (llvmcpy_init env arg w sm).result = Except.ok f)
    (hnd : (env.moduleSymbols.map Prod.fst).Nodup)
    (hver : "version" ∉ env.moduleSymbols.map Prod.fst)
    (hkv : (k, v) ∈ env.moduleSymbols) :
    f.version = env.cfg.version
    ∧ f.attrs k = some (PyValue.ref v)
    ∧ f.attrs "version" = some (PyValue.str env.cfg.version) := by
  obtain ⟨hv, ha, -, -, -⟩ := init_ok_shape env arg w sm f hres
  refine ⟨hv, ?_, ?_⟩
  · rw [ha]
    unfold buildAttrs
    exact attrs_foldl_mem _ _ k v hkv hnd
  · rw [ha]
    unfold buildAttrs
    rw [attrs_foldl_notMem _ _ _ hver]
    simp [setAttr]

/-- Witness for C8 on a warm cache: the facade exposes a module symbol and
the `version` attribute. -/
theorem c8_facade_reexport_witness :
    (⟨envHit.cfg.version, buildAttrs envHit.cfg.version envHit.moduleSymbols, 0⟩ : Facade).version
        = envHit.cfg.version
    ∧ (⟨envHit.cfg.version, buildAttrs envHit.cfg.version envHit.moduleSymbols, 0⟩ : Facade).attrs
        "create_context" = some (PyValue.ref 3)
    ∧ (⟨envHit.cfg.version, buildAttrs envHit.cfg.version envHit.moduleSymbols, 0⟩ : Facade).attrs
        "version" = some (PyValue.str envHit.cfg.version) :=
  c8_facade_reexport envHit (some lcW) 0 []
    ⟨envHit.cfg.version, buildAttrs envHit.cfg.version envHit.moduleSymbols, 0⟩
    "create_context" 3 rfl (by decide) (by decide) (by decide)

/-! ## C9: loader isolation -/

/-- C9: loading never touches the process-wide module registry; the unit is
named `llvmcpy-<cache dir name>`, so different cache directories never
collide; and every construction — a cache hit included — re-executes the
artifact, each load owning a fresh module identity, so no module state is
shared by reference between facade instances. -/
theorem c9_module_isolation (env1 env2 : Env) (arg1 arg2 : Option String) (w : Nat)
    (sm1 sm2 : List String) (f1 f2 : Facade)
    (spg : List String) (lcg ver : String) (wg : Nat) (m : PyModule) (d1 d2 : String)
    (h1 : (llvmcpy_init env1 arg1 w sm1).result = Except.ok f1)
    (h2 : (llvmcpy_init env2 arg2 ((llvmcpy_init env1 arg1 w sm1).world) sm2).result
        = Except.ok f2)
    (hgm : (get_module env1 spg lcg ver wg).result = Except.ok m)
    (hd : d1 ≠ d2) :
    (llvmcpy_init env1 arg1 w sm1).sysModules = sm1
    ∧ (llvmcpy_init env2 arg2 ((llvmcpy_init env1 arg1 w sm1).world) sm2).sysModules = sm2
    ∧ m.unitName = "llvmcpy-" ++ cacheDirName env1.hash lcg env1.toolVersion ver
    ∧ ("llvmcpy-" ++ d1) ≠ ("llvmcpy-" ++ d2)
    ∧ ((llvmcpy_init env1 arg1 w sm1).trace.filter isExecArtifact) ≠ []
    ∧ ((llvmcpy_init env2 arg2 ((llvmcpy_init env1 arg1 w sm1).world) sm2).trace.filter
        isExecArtifact) ≠ []
    ∧ f1.modId ≠ f2.modId := by
  obtain ⟨-, -, hid1, hw1, ⟨nm1, p1, hexec1⟩⟩ := init_ok_shape env1 arg1 w sm1 f1 h1
  obtain ⟨-, -, hid2, -, ⟨nm2, p2, hexec2⟩⟩ :=
    init_ok_shape env2 arg2 ((llvmcpy_init env1 arg1 w sm1).world) sm2 f2 h2
  refine ⟨init_sysModules env1 arg1 w sm1,
    init_sysModules env2 arg2 ((llvmcpy_init env1 arg1 w sm1).world) sm2, ?_,
    append_head_ne hd, ?_, ?_, ?_⟩
  · rcases get_module_cases env1 spg lcg ver wg with ⟨m', hm', hnm', -, -, -, -⟩ | ⟨e, he⟩
    · rw [hgm] at hm'
      cases hm'
      exact hnm'
    · rw [hgm] at he
      cases he
  · intro hnil
    rw [List.filter_eq_nil_iff] at hnil
    exact (hnil _ hexec1) (by simp [isExecArtifact])
  · intro hnil
    rw [List.filter_eq_nil_iff] at hnil
    exact (hnil _ hexec2) (by simp [isExecArtifact])
  · rw [hid1, hid2, hw1]
    exact Nat.ne_of_lt (Nat.lt_succ_self w)

/-- Witness for C9: two consecutive warm-cache constructions yield distinct
module identities, the registry is untouched, and the loader names the unit
from the cache-directory name. -/
theorem c9_module_isolation_witness :
    (llvmcpy_init envHit (some lcW) 0 []).sysModules = []
    ∧ (llvmcpy_init envHit (some lcW) ((llvmcpy_init envHit (some lcW) 0 []).world)
        ["ctypes"]).sysModules = ["ctypes"]
    ∧ (PyModule.mk ("llvmcpy-" ++ cacheDirName envHit.hash lcW envHit.toolVersion
        envHit.cfg.version) envHit.moduleSymbols 5).unitName =
        "llvmcpy-" ++ cacheDirName envHit.hash lcW envHit.toolVersion envHit.cfg.version
    ∧ ("llvmcpy-" ++ "cafe-14.0.0") ≠ ("llvmcpy-" ++ "cafe-15.0.0")
    ∧ ((llvmcpy_init envHit (some lcW) 0 []).trace.filter isExecArtifact) ≠ []
    ∧ ((llvmcpy_init envHit (some lcW) ((llvmcpy_init envHit (some lcW) 0 []).world)
        ["ctypes"]).trace.filter isExecArtifact) ≠ []
    ∧ (⟨envHit.cfg.version, buildAttrs envHit.cfg.version envHit.moduleSymbols, 0⟩ : Facade).modId
        ≠ (⟨envHit.cfg.version, buildAttrs envHit.cfg.version envHit.moduleSymbols, 1⟩ : Facade).modId :=
  c9_module_isolation envHit envHit (some lcW) (some lcW) 0 [] ["ctypes"]
    ⟨envHit.cfg.version, buildAttrs envHit.cfg.version envHit.moduleSymbols, 0⟩
    ⟨envHit.cfg.version, buildAttrs envHit.cfg.version envHit.moduleSymbols, 1⟩
    spW lcW envHit.cfg.version 5
    ⟨"llvmcpy-" ++ cacheDirName envHit.hash lcW envHit.toolVersion envHit.cfg.version,
     envHit.moduleSymbols, 5⟩
    "cafe-14.0.0" "cafe-15.0.0"
    rfl rfl rfl (by decide)

end LLVMCPy
